import Mathlib

/-!
Verification of the session-scoped agent lifecycle and streaming pipeline of
the flash-loan-agent service (`app.py`).

The embedding models:
* the process-wide `agents_cache` dictionary as an association list with
  Python-dict semantics (assignment overwrites, `del` removes, keys unique);
* `Agent` construction (`get_agent_for_session`) with an explicit constructor
  counter `ctorId` standing for Python object identity, an `AgentEnv` carrying
  the value `str(uuid.uuid4())` would mint and whether construction raises;
* the MongoDB-backed session store as read-only association lists;
* the streaming generators `chat_with_agent_streaming` / `generate_response`
  as functions from an abstract producer (the prefix of chunks successfully
  yielded by `agent.run(stream=True)` plus an optional trailing exception)
  to the list of emitted stream events.
-/

namespace FlashLoanAgent

/-- A live agent runtime.  `ctorId` is a construction counter standing for
Python object identity: two `Agent` values denote the same live object iff
all fields, `ctorId` included, agree. -/
structure Agent where
  session_id : String
  user_id : String
  ctorId : Nat
deriving DecidableEq, Repr

/-- The global `agents_cache` dictionary, as an association list.
Python dict keys are unique; `insert` overwrites in place and `erase`
removes the (unique) binding of a key. -/
abbrev Cache := List (String × Agent)

def Cache.find : Cache → String → Option Agent
  | [], _ => none
  | (k, v) :: rest, key => if k = key then some v else Cache.find rest key

/-- `agents_cache[key] = v`: overwrite the binding if present, else append. -/
def Cache.insert : Cache → String → Agent → Cache
  | [], key, v => [(key, v)]
  | (k, w) :: rest, key, v =>
    if k = key then (key, v) :: rest else (k, w) :: Cache.insert rest key v

/-- `del agents_cache[key]` (tolerating an absent key).  Dict keys are
unique, so removing every binding of `key` equals removing its entry. -/
def Cache.erase : Cache → String → Cache
  | [], _ => []
  | (k, v) :: rest, key =>
    if k = key then Cache.erase rest key else (k, v) :: Cache.erase rest key

theorem Cache.find_insert_self (c : Cache) (k : String) (v : Agent) :
    Cache.find (Cache.insert c k v) k = some v := by
  induction c with
  | nil => simp [Cache.insert, Cache.find]
  | cons kv rest ih =>
    obtain ⟨k', v'⟩ := kv
    by_cases h : k' = k
    · simp [Cache.insert, Cache.find, h]
    · simp [Cache.insert, Cache.find, h, ih]

theorem Cache.find_insert_ne (c : Cache) (k k' : String) (v : Agent)
    (h : k' ≠ k) : Cache.find (Cache.insert c k v) k' = Cache.find c k' := by
  have h' : ¬(k = k') := fun hh => h hh.symm
  induction c with
  | nil => simp [Cache.insert, Cache.find, h']
  | cons kv rest ih =>
    obtain ⟨k₀, v₀⟩ := kv
    by_cases h₀ : k₀ = k
    · subst h₀
      simp [Cache.insert, Cache.find, h']
    · by_cases h₁ : k₀ = k'
      · simp [Cache.insert, Cache.find, h₀, h₁, h]
      · simp [Cache.insert, Cache.find, h₀, h₁, ih]

theorem Cache.find_erase_self (c : Cache) (k : String) :
    Cache.find (Cache.erase c k) k = none := by
  induction c with
  | nil => simp [Cache.erase, Cache.find]
  | cons kv rest ih =>
    obtain ⟨k₀, v₀⟩ := kv
    by_cases h : k₀ = k
    · simp [Cache.erase, Cache.find, h, ih]
    · simp [Cache.erase, Cache.find, h, ih]

theorem Cache.find_erase_ne (c : Cache) (k k' : String) (h : k' ≠ k) :
    Cache.find (Cache.erase c k) k' = Cache.find c k' := by
  have h' : ¬(k = k') := fun hh => h hh.symm
  induction c with
  | nil => simp [Cache.erase, Cache.find]
  | cons kv rest ih =>
    obtain ⟨k₀, v₀⟩ := kv
    by_cases h₀ : k₀ = k
    · subst h₀
      simp [Cache.erase, Cache.find, h', ih]
    · by_cases h₁ : k₀ = k'
      · simp [Cache.erase, Cache.find, h₀, h₁, h]
      · simp [Cache.erase, Cache.find, h₀, h₁, ih]

theorem Cache.erase_of_find_none (c : Cache) (k : String)
    (h : Cache.find c k = none) : Cache.erase c k = c := by
  induction c with
  | nil => simp [Cache.erase]
  | cons kv rest ih =>
    obtain ⟨k₀, v₀⟩ := kv
    by_cases h₀ : k₀ = k
    · simp [Cache.find, h₀] at h
    · simp only [Cache.find, if_neg h₀] at h
      simp [Cache.erase, h₀, ih h]

theorem Cache.erase_erase (c : Cache) (k : String) :
    Cache.erase (Cache.erase c k) k = Cache.erase c k := by
  induction c with
  | nil => simp [Cache.erase]
  | cons kv rest ih =>
    obtain ⟨k₀, v₀⟩ := kv
    by_cases h : k₀ = k
    · simp [Cache.erase, h, ih]
    · simp [Cache.erase, h, ih]

/-- Environment of one `Agent` construction attempt: `mintId` is the value
`str(uuid.uuid4())` would return, and `ctorFail = some e` means the
`Agent(...)` constructor raises an exception rendering as `e` (e.g. the
MongoDB session store is unreachable). -/
structure AgentEnv where
  mintId : String
  ctorFail : Option String
deriving DecidableEq, Repr

/-- `get_agent_for_session(session_id, user_id)`: mints a fresh session id
when none is supplied, then constructs the `Agent`.  `ctorId` is the
construction counter supplied by the caller, modelling object identity. -/
def get_agent_for_session (env : AgentEnv) (ctorId : Nat)
    (session_id : Option String) (user_id : String) : Except String Agent :=
  let sid := match session_id with
    | none => env.mintId
    | some s => s
  match env.ctorFail with
  | some e => Except.error e
  | none => Except.ok { session_id := sid, user_id := user_id, ctorId := ctorId }

/-- The cache plus the construction counter for the next `Agent` object. -/
structure CacheState where
  cache : Cache
  nextCtor : Nat
deriving DecidableEq, Repr

/-- Python `session_id or 'new'`: `None` and the empty string are falsy and
both map to the placeholder token `'new'`. -/
def sessionKeyPart : Option String → String
  | none => "new"
  | some s => if s = "" then "new" else s

/-- `get_or_create_agent(wallet_address, session_id)`.  Returns the updated
global state together with either the `(agent, session_id)` pair or the
propagated construction exception (in which case the state is untouched:
the `Agent(...)` call raises before any cache write). -/
def get_or_create_agent (env : AgentEnv) (st : CacheState)
    (wallet_address : String) (session_id : Option String) :
    CacheState × Except String (Agent × String) :=
  let cache_key := wallet_address ++ ":" ++ sessionKeyPart session_id
  match Cache.find st.cache cache_key with
  | some agent => (st, Except.ok (agent, agent.session_id))
  | none =>
    match get_agent_for_session env st.nextCtor session_id wallet_address with
    | Except.error e => (st, Except.error e)
    | Except.ok agent =>
      let cache1 := Cache.insert st.cache cache_key agent
      match session_id with
      | none =>
        let actual_session_id := agent.session_id
        let new_cache_key := wallet_address ++ ":" ++ actual_session_id
        if new_cache_key ≠ cache_key then
          let cache2 := Cache.erase (Cache.insert cache1 new_cache_key agent) cache_key
          ({ cache := cache2, nextCtor := st.nextCtor + 1 },
           Except.ok (agent, actual_session_id))
        else
          ({ cache := cache1, nextCtor := st.nextCtor + 1 },
           Except.ok (agent, actual_session_id))
      | some sid =>
        ({ cache := cache1, nextCtor := st.nextCtor + 1 }, Except.ok (agent, sid))

/-- Injectivity of the cache-key construction in the session part. -/
theorem key_part_inj (w a b : String) (h : w ++ ":" ++ a = w ++ ":" ++ b) :
    a = b := by
  have hd : (w ++ ":" ++ a).data = (w ++ ":" ++ b).data := congrArg String.data h
  simp only [String.data_append] at hd
  exact String.ext (List.append_cancel_left hd)

/-- The cache-hit branch of `get_or_create_agent`: an existing entry is
returned as-is, the state untouched. -/
theorem resolve_hit_eq (env : AgentEnv) (st : CacheState) (wallet sid : String)
    (agent : Agent)
    (h : Cache.find st.cache (wallet ++ ":" ++ sessionKeyPart (some sid)) = some agent) :
    get_or_create_agent env st wallet (some sid)
      = (st, Except.ok (agent, agent.session_id)) := by
  simp [get_or_create_agent, h]

/-- A stored session record as returned by `storage.read`; the gateway only
ever projects its `messages` field, whose entries stay opaque here. -/
structure StoredSession where
  messages : List String
deriving DecidableEq, Repr

/-- The durable MongoDB session store, as read by the gateway:
`get_all_session_ids(user_id)` and `read(session_id)` views. -/
structure Store where
  sessionIdsByUser : List (String × List String)
  sessions : List (String × StoredSession)
deriving DecidableEq, Repr

/-- `storage.get_all_session_ids(user_id)` (an owner absent from the store
has no durable sessions). -/
def Store.get_all_session_ids (store : Store) (user_id : String) : List String :=
  match store.sessionIdsByUser.find? (fun kv => kv.1 = user_id) with
  | some kv => kv.2
  | none => []

/-- `storage.read(session_id)`: `None` when the session does not exist. -/
def Store.read (store : Store) (session_id : String) : Option StoredSession :=
  match store.sessions.find? (fun kv => kv.1 = session_id) with
  | some kv => some kv.2
  | none => none

/-- `list_sessions(user_id)`.  `storeFail = some e` models the storage call
raising: the exception is caught, logged and `[]` returned.  On success the
code returns `sessions if sessions else []`. -/
def list_sessions (store : Store) (storeFail : Option String)
    (user_id : String) : List String :=
  match storeFail with
  | some _ => []
  | none =>
    let sessions := Store.get_all_session_ids store user_id
    if sessions.isEmpty then [] else sessions

/-- `load_session_history(session_id)`.  `storeFail` models `storage.read`
raising (caught, logged, `[]` returned); a missing session or one without
messages also yields `[]`. -/
def load_session_history (store : Store) (storeFail : Option String)
    (session_id : String) : List String :=
  match storeFail with
  | some _ => []
  | none =>
    match Store.read store session_id with
    | some session => session.messages
    | none => []

/-- The whole process state visible to the HTTP handlers: the in-memory
agent cache and the durable store. -/
structure AppState where
  cacheState : CacheState
  store : Store
deriving DecidableEq, Repr

structure ChatRequest where
  message : String
  wallet_address : String
  session_id : Option String
deriving DecidableEq, Repr

structure ChatResponse where
  response : String
  session_id : String
  wallet_address : String
deriving DecidableEq, Repr

structure SessionsResponse where
  sessions : List String
  wallet_address : String
deriving DecidableEq, Repr

structure SessionHistoryResponse where
  history : List String
  session_id : String
  wallet_address : String
deriving DecidableEq, Repr

structure DeleteSessionResponse where
  message : String
  session_id : String
deriving DecidableEq, Repr

/-- Outcome of a request handler: a typed 200 body or an `HTTPException`. -/
inductive HttpResult (α : Type) where
  | ok (body : α)
  | httpError (status : Nat) (detail : String)
deriving DecidableEq, Repr

/-- `chat_with_agent_non_streaming(user_input, agent)`.  `runResult`
abstracts `agent.run(user_input, stream=False)`: either the extracted reply
content or the exception it raises, which the function catches and degrades
into reply text. -/
def chat_with_agent_non_streaming (runResult : Except String String) : String :=
  match runResult with
  | Except.ok content => content
  | Except.error e => "Error getting response: " ++ e

/-- `POST /api/chat`.  Resolution failures escape the agent-cache step into
the handler's `except` clause and become an HTTP 500; reply-production
failures were already degraded into text by `chat_with_agent_non_streaming`. -/
def chat (env : AgentEnv) (st : AppState) (req : ChatRequest)
    (runResult : Except String String) : AppState × HttpResult ChatResponse :=
  match get_or_create_agent env st.cacheState req.wallet_address req.session_id with
  | (cs, Except.error e) =>
    ({ st with cacheState := cs },
     HttpResult.httpError 500 ("Error processing chat request: " ++ e))
  | (cs, Except.ok (_, session_id)) =>
    ({ st with cacheState := cs },
     HttpResult.ok { response := chat_with_agent_non_streaming runResult,
                     session_id := session_id,
                     wallet_address := req.wallet_address })

/-- `GET /api/sessions/{wallet_address}` (the handler body never touches the
agent cache, only the durable store). -/
def get_sessions (st : AppState) (storeFail : Option String)
    (wallet_address : String) : SessionsResponse :=
  { sessions := list_sessions st.store storeFail wallet_address,
    wallet_address := wallet_address }

/-- `GET /api/sessions/{wallet_address}/{session_id}/history`: the wallet
address is never passed to the lookup, only echoed back. -/
def get_session_history (st : AppState) (storeFail : Option String)
    (wallet_address session_id : String) : SessionHistoryResponse :=
  { history := load_session_history st.store storeFail session_id,
    session_id := session_id,
    wallet_address := wallet_address }

/-- `DELETE /api/sessions/{wallet_address}/{session_id}`: removes the cache
entry if present and reports success; the store is never consulted. -/
def delete_session (st : AppState) (wallet_address session_id : String) :
    AppState × DeleteSessionResponse :=
  let cache_key := wallet_address ++ ":" ++ session_id
  ({ st with cacheState := { st.cacheState with
       cache := Cache.erase st.cacheState.cache cache_key } },
   { message := "Session " ++ session_id ++ " cleared from cache",
     session_id := session_id })

/-- `agent.run(user_input, stream=True)` as observed by the gateway:
the prefix of chunk contents it yields successfully, and `raises = some e`
when iteration then raises an exception rendering as `e`. -/
structure Producer where
  chunks : List String
  raises : Option String
deriving DecidableEq, Repr

/-- Truthiness of Python `content.strip()`: stripping leaves a non-empty
string exactly when some character is not whitespace. -/
def stripTruthy (s : String) : Bool :=
  s.data.any (fun c => !c.isWhitespace)

/-- The combined truthiness tests on a chunk: `if chunk:` and then
`if content and content.strip():` with `content = chunk`. -/
def contentful (c : String) : Bool :=
  !(c == "") && stripTruthy c

/-- The `for chunk in response_stream` loop body of
`chat_with_agent_streaming`: yield each contentful chunk. -/
def streamChunksLoop : List String → List String
  | [] => []
  | chunk :: rest =>
    if contentful chunk then chunk :: streamChunksLoop rest
    else streamChunksLoop rest

/-- `chat_with_agent_streaming(user_input, agent)`.  The `try` wraps the
whole loop, so an exception from the producer ends iteration and the
`except` clause yields the error text as one final ordinary chunk. -/
def chat_with_agent_streaming (p : Producer) : List String :=
  streamChunksLoop p.chunks ++
    (match p.raises with
     | some e => ["Error getting response: " ++ e]
     | none => [])

/-- One server-sent event of `POST /api/chat/stream`, discriminated by its
`type` field. -/
inductive StreamEvent where
  | session_info (session_id wallet_address : String)
  | content (text session_id wallet_address : String)
  | complete (session_id wallet_address : String)
  | error (err session_id wallet_address : String)
deriving DecidableEq, Repr

/-- The `for chunk in chat_with_agent_streaming(...)` loop of
`generate_response`: re-test `if chunk and chunk.strip():` and emit a
`content` event per passing chunk. -/
def emitContentEvents (session_id wallet_address : String) :
    List String → List StreamEvent
  | [] => []
  | chunk :: rest =>
    if contentful chunk then
      StreamEvent.content chunk session_id wallet_address ::
        emitContentEvents session_id wallet_address rest
    else emitContentEvents session_id wallet_address rest

/-- The `generate_response` generator of `POST /api/chat/stream`: the
`session_info` event, the content events, then the completion event.  Its
`except` clause (which would emit an `error` event) is unreachable for
producer failures, because `chat_with_agent_streaming` catches those
internally and re-emits them as a text chunk; serialising plain string
payloads raises nothing, so the success path here is total. -/
def generate_response (session_id wallet_address : String) (p : Producer) :
    List StreamEvent :=
  StreamEvent.session_info session_id wallet_address ::
    (emitContentEvents session_id wallet_address (chat_with_agent_streaming p) ++
     [StreamEvent.complete session_id wallet_address])

/-- C3: for a caller-supplied session id whose cache entry exists,
`get_or_create_agent` returns exactly the cached instance with the state
untouched, and a repeated resolve (under any construction environment)
returns the identical instance again — no second runtime is constructed
for a key already present in the cache. -/
theorem resolve_cache_hit_returns_cached_instance
    (env env' : AgentEnv) (st : CacheState) (wallet sid : String) (agent : Agent)
    (h : Cache.find st.cache (wallet ++ ":" ++ sessionKeyPart (some sid)) = some agent) :
    get_or_create_agent env st wallet (some sid)
      = (st, Except.ok (agent, agent.session_id)) ∧
    get_or_create_agent env' (get_or_create_agent env st wallet (some sid)).1
        wallet (some sid)
      = (st, Except.ok (agent, agent.session_id)) := by
  have h1 := resolve_hit_eq env st wallet sid agent h
  refine ⟨h1, ?_⟩
  rw [h1]
  exact resolve_hit_eq env' st wallet sid agent h

/-- Witness for C3 at a concrete one-entry cache. -/
theorem resolve_cache_hit_returns_cached_instance_witness :
    get_or_create_agent { mintId := "u-7", ctorFail := none }
        { cache := [("0xabc:s1", { session_id := "s1", user_id := "0xabc", ctorId := 0 })],
          nextCtor := 1 } "0xabc" (some "s1")
      = ({ cache := [("0xabc:s1", { session_id := "s1", user_id := "0xabc", ctorId := 0 })],
           nextCtor := 1 },
         Except.ok ({ session_id := "s1", user_id := "0xabc", ctorId := 0 }, "s1")) ∧
    get_or_create_agent { mintId := "u-8", ctorFail := none }
        (get_or_create_agent { mintId := "u-7", ctorFail := none }
          { cache := [("0xabc:s1", { session_id := "s1", user_id := "0xabc", ctorId := 0 })],
            nextCtor := 1 } "0xabc" (some "s1")).1 "0xabc" (some "s1")
      = ({ cache := [("0xabc:s1", { session_id := "s1", user_id := "0xabc", ctorId := 0 })],
           nextCtor := 1 },
         Except.ok ({ session_id := "s1", user_id := "0xabc", ctorId := 0 }, "s1")) :=
  resolve_cache_hit_returns_cached_instance
    { mintId := "u-7", ctorFail := none } { mintId := "u-8", ctorFail := none }
    { cache := [("0xabc:s1", { session_id := "s1", user_id := "0xabc", ctorId := 0 })],
      nextCtor := 1 }
    "0xabc" "s1" { session_id := "s1", user_id := "0xabc", ctorId := 0 } (by rfl)

/-- C7: the history endpoint's exchange list depends only on the session
id — two different wallet addresses receive equal histories and equal
session ids, and the wallet address only shows up as the echoed field. -/
theorem history_lookup_not_owner_scoped
    (st : AppState) (storeFail : Option String) (a b sid : String) :
    (get_session_history st storeFail a sid).history
      = (get_session_history st storeFail b sid).history ∧
    (get_session_history st storeFail a sid).session_id = sid ∧
    (get_session_history st storeFail b sid).session_id = sid ∧
    (get_session_history st storeFail a sid).wallet_address = a := by
  exact ⟨rfl, rfl, rfl, rfl⟩

/-- C8: when resolution succeeded but `agent.run(stream=False)` raises,
`POST /api/chat` still answers with a normal 200 body whose reply text is
`"Error getting response: "` plus the exception description. -/
theorem buffered_send_degrades_reply_failure
    (env : AgentEnv) (st : AppState) (req : ChatRequest) (e : String)
    (cs : CacheState) (agent : Agent) (sid : String)
    (h : get_or_create_agent env st.cacheState req.wallet_address req.session_id
      = (cs, Except.ok (agent, sid))) :
    chat env st req (Except.error e)
      = ({ st with cacheState := cs },
         HttpResult.ok { response := "Error getting response: " ++ e,
                         session_id := sid,
                         wallet_address := req.wallet_address }) := by
  simp [chat, h, chat_with_agent_non_streaming]

/-- Witness for C8: a cache-hit resolution followed by a failing reply
production yields the degraded 200 body. -/
theorem buffered_send_degrades_reply_failure_witness :
    chat { mintId := "u-7", ctorFail := none }
        { cacheState :=
            { cache := [("0xabc:s1", { session_id := "s1", user_id := "0xabc", ctorId := 0 })],
              nextCtor := 1 },
          store := { sessionIdsByUser := [], sessions := [] } }
        { message := "hi", wallet_address := "0xabc", session_id := some "s1" }
        (Except.error "model down")
      = ({ cacheState :=
             { cache := [("0xabc:s1", { session_id := "s1", user_id := "0xabc", ctorId := 0 })],
               nextCtor := 1 },
           store := { sessionIdsByUser := [], sessions := [] } },
         HttpResult.ok { response := "Error getting response: model down",
                         session_id := "s1",
                         wallet_address := "0xabc" }) :=
  buffered_send_degrades_reply_failure
    { mintId := "u-7", ctorFail := none }
    { cacheState :=
        { cache := [("0xabc:s1", { session_id := "s1", user_id := "0xabc", ctorId := 0 })],
          nextCtor := 1 },
      store := { sessionIdsByUser := [], sessions := [] } }
    { message := "hi", wallet_address := "0xabc", session_id := some "s1" }
    "model down"
    { cache := [("0xabc:s1", { session_id := "s1", user_id := "0xabc", ctorId := 0 })],
      nextCtor := 1 }
    { session_id := "s1", user_id := "0xabc", ctorId := 0 } "s1" (by rfl)

/-- The constructor id of the runtime a resolution returned, when it
succeeded. -/
def resolvedCtorId : Except String (Agent × String) → Option Nat
  | Except.ok (a, _) => some a.ctorId
  | Except.error _ => none

/-- C4: when the requested key is absent and `Agent(...)` construction
raises, the exception propagates out of `get_or_create_agent` with the
state — cache and constructor counter — completely untouched, and a later
resolve for the same key under a non-failing environment really does
construct afresh (the counter advances and the returned runtime carries the
previously unused constructor id). -/
theorem resolve_construction_failure_leaves_cache_unchanged
    (env : AgentEnv) (st : CacheState) (wallet : String)
    (session_id : Option String) (e : String)
    (hfail : env.ctorFail = some e)
    (hfind : Cache.find st.cache (wallet ++ ":" ++ sessionKeyPart session_id) = none) :
    get_or_create_agent env st wallet session_id = (st, Except.error e) ∧
    (∀ env' : AgentEnv, env'.ctorFail = none →
      ((get_or_create_agent env' st wallet session_id).1).nextCtor = st.nextCtor + 1 ∧
      resolvedCtorId (get_or_create_agent env' st wallet session_id).2
        = some st.nextCtor) := by
  constructor
  · simp [get_or_create_agent, get_agent_for_session, hfind, hfail]
  · intro env' hok
    cases session_id with
    | none =>
      simp only [get_or_create_agent, get_agent_for_session, hfind, hok]
      split
      · exact ⟨rfl, rfl⟩
      · exact ⟨rfl, rfl⟩
    | some sid =>
      simp only [get_or_create_agent, get_agent_for_session, hfind, hok]
      exact ⟨by trivial, rfl⟩

/-- Witness for C4: a store-unreachable construction failure on an empty
cache propagates and leaves the state empty; retrying with a working
environment constructs runtime number zero. -/
theorem resolve_construction_failure_leaves_cache_unchanged_witness :
    get_or_create_agent { mintId := "u-7", ctorFail := some "store unreachable" }
        { cache := [], nextCtor := 0 } "0xabc" (some "s1")
      = ({ cache := [], nextCtor := 0 }, Except.error "store unreachable") ∧
    ((get_or_create_agent { mintId := "u-9", ctorFail := none }
        { cache := [], nextCtor := 0 } "0xabc" (some "s1")).1).nextCtor = 0 + 1 ∧
    resolvedCtorId (get_or_create_agent { mintId := "u-9", ctorFail := none }
        { cache := [], nextCtor := 0 } "0xabc" (some "s1")).2 = some 0 := by
  have h := resolve_construction_failure_leaves_cache_unchanged
    { mintId := "u-7", ctorFail := some "store unreachable" }
    { cache := [], nextCtor := 0 } "0xabc" (some "s1") "store unreachable"
    (by rfl) (by rfl)
  exact ⟨h.1, h.2 { mintId := "u-9", ctorFail := none } rfl⟩

/-- C6: session eviction only erases the one cache entry for its key: the
durable store and the constructor counter are untouched, all other keys
keep their bindings, evicting an absent key is a no-op that still reports
success, and evicting twice equals evicting once. -/
theorem evict_is_idempotent_cache_only
    (st : AppState) (wallet sid : String) :
    (delete_session st wallet sid).1.store = st.store ∧
    (delete_session st wallet sid).1.cacheState.nextCtor = st.cacheState.nextCtor ∧
    (delete_session st wallet sid).2
      = { message := "Session " ++ sid ++ " cleared from cache", session_id := sid } ∧
    Cache.find (delete_session st wallet sid).1.cacheState.cache (wallet ++ ":" ++ sid)
      = none ∧
    (∀ k : String, k ≠ wallet ++ ":" ++ sid →
      Cache.find (delete_session st wallet sid).1.cacheState.cache k
        = Cache.find st.cacheState.cache k) ∧
    (Cache.find st.cacheState.cache (wallet ++ ":" ++ sid) = none →
      delete_session st wallet sid = (st, (delete_session st wallet sid).2)) ∧
    delete_session (delete_session st wallet sid).1 wallet sid
      = ((delete_session st wallet sid).1, (delete_session st wallet sid).2) := by
  refine ⟨rfl, rfl, rfl, ?_, ?_, ?_, ?_⟩
  · exact Cache.find_erase_self st.cacheState.cache (wallet ++ ":" ++ sid)
  · intro k hk
    exact Cache.find_erase_ne st.cacheState.cache (wallet ++ ":" ++ sid) k hk
  · intro habsent
    simp [delete_session, Cache.erase_of_find_none st.cacheState.cache _ habsent]
  · simp [delete_session, Cache.erase_erase]

/-- Witness for C6 on a concrete two-entry cache: evicting a key not in the
cache twice leaves everything in place and answers with the confirmation
body both times. -/
theorem evict_is_idempotent_cache_only_witness :
    (delete_session
        { cacheState :=
            { cache := [("0xabc:s1", { session_id := "s1", user_id := "0xabc", ctorId := 0 })],
              nextCtor := 1 },
          store := { sessionIdsByUser := [("0xabc", ["s1"])], sessions := [] } }
        "0xabc" "nope").1.store
      = { sessionIdsByUser := [("0xabc", ["s1"])], sessions := [] } ∧
    delete_session
        { cacheState :=
            { cache := [("0xabc:s1", { session_id := "s1", user_id := "0xabc", ctorId := 0 })],
              nextCtor := 1 },
          store := { sessionIdsByUser := [("0xabc", ["s1"])], sessions := [] } }
        "0xabc" "nope"
      = ({ cacheState :=
             { cache := [("0xabc:s1", { session_id := "s1", user_id := "0xabc", ctorId := 0 })],
               nextCtor := 1 },
           store := { sessionIdsByUser := [("0xabc", ["s1"])], sessions := [] } },
         { message := "Session nope cleared from cache", session_id := "nope" }) := by
  have h := evict_is_idempotent_cache_only
    { cacheState :=
        { cache := [("0xabc:s1", { session_id := "s1", user_id := "0xabc", ctorId := 0 })],
          nextCtor := 1 },
      store := { sessionIdsByUser := [("0xabc", ["s1"])], sessions := [] } }
    "0xabc" "nope"
  exact ⟨h.1, h.2.2.2.2.2.1 (by rfl)⟩

/-- C9: the sessions endpoint answers from the durable store alone — its
body is invariant under any change of the in-memory agent cache, equals the
store's id list for the owner, and an owner with zero durable sessions gets
the empty list (a plain 200 body, not an error). -/
theorem list_sessions_from_store_not_cache
    (cs cs' : CacheState) (store : Store) (w : String) :
    get_sessions { cacheState := cs, store := store } none w
      = get_sessions { cacheState := cs', store := store } none w ∧
    (get_sessions { cacheState := cs, store := store } none w).sessions
      = Store.get_all_session_ids store w ∧
    (Store.get_all_session_ids store w = [] →
      get_sessions { cacheState := cs, store := store } none w
        = { sessions := [], wallet_address := w }) := by
  refine ⟨rfl, ?_, ?_⟩
  · simp only [get_sessions, list_sessions]
    split
    · next hempty => simp [List.isEmpty_iff] at hempty; exact hempty.symm
    · rfl
  · intro hzero
    simp [get_sessions, list_sessions, hzero]

/-- Witness for C9: an owner absent from the durable store receives the
empty list even while the cache holds a live runtime for it. -/
theorem list_sessions_from_store_not_cache_witness :
    get_sessions
        { cacheState :=
            { cache := [("0xdef:s9", { session_id := "s9", user_id := "0xdef", ctorId := 3 })],
              nextCtor := 4 },
          store := { sessionIdsByUser := [("0xabc", ["s1"])], sessions := [] } }
        none "0xdef"
      = { sessions := [], wallet_address := "0xdef" } :=
  (list_sessions_from_store_not_cache
    { cache := [("0xdef:s9", { session_id := "s9", user_id := "0xdef", ctorId := 3 })],
      nextCtor := 4 }
    { cache := [], nextCtor := 0 }
    { sessionIdsByUser := [("0xabc", ["s1"])], sessions := [] } "0xdef").2.2 (by rfl)

theorem emitContentEvents_eq_filter_map (session_id wallet_address : String)
    (l : List String) :
    emitContentEvents session_id wallet_address l
      = (l.filter contentful).map
          (fun c => StreamEvent.content c session_id wallet_address) := by
  induction l with
  | nil => rfl
  | cons chunk rest ih =>
    by_cases h : contentful chunk = true
    · simp [emitContentEvents, List.filter, h, ih]
    · simp only [Bool.not_eq_true] at h
      simp [emitContentEvents, List.filter, h, ih]

/-- C2 (amended): the stream always opens with exactly one `session_info`,
continues with the contentful chunks in production order, and closes with
exactly one `complete` — even when the producer raised, because the inner
wrapper degrades the failure into a final text chunk rather than letting
the `error` terminal fire. -/
theorem stream_is_session_info_contents_complete
    (session_id wallet_address : String) (p : Producer) :
    ∃ cs : List String,
      generate_response session_id wallet_address p
        = StreamEvent.session_info session_id wallet_address ::
            (cs.map (fun c => StreamEvent.content c session_id wallet_address) ++
             [StreamEvent.complete session_id wallet_address]) ∧
      cs.all contentful = true := by
  refine ⟨(chat_with_agent_streaming p).filter contentful, ?_, ?_⟩
  · simp [generate_response, emitContentEvents_eq_filter_map]
  · simp only [List.all_eq_true]
    intro c hc
    exact (List.mem_filter.mp hc).2

/-- C2 (counterexample): a producer failing after two delivered fragments
produces a third `content` event carrying the degraded error text followed
by a `complete` terminal — not the `error` terminal the claim requires,
and no `error` event appears anywhere in the stream. -/
theorem stream_failure_after_two_fragments_degrades_to_content :
    generate_response "s" "w" { chunks := ["a", "b"], raises := some "boom" }
      = [StreamEvent.session_info "s" "w",
         StreamEvent.content "a" "s" "w",
         StreamEvent.content "b" "s" "w",
         StreamEvent.content "Error getting response: boom" "s" "w",
         StreamEvent.complete "s" "w"] ∧
    generate_response "s" "w" { chunks := ["a", "b"], raises := some "boom" }
      ≠ [StreamEvent.session_info "s" "w",
         StreamEvent.content "a" "s" "w",
         StreamEvent.content "b" "s" "w",
         StreamEvent.error "boom" "s" "w"] ∧
    (generate_response "s" "w" { chunks := ["a", "b"], raises := some "boom" }).all
        (fun ev => match ev with
          | StreamEvent.error _ _ _ => false
          | _ => true) = true := by
  refine ⟨rfl, ?_, rfl⟩
  decide

/-- Whether a stream event is a `content` event with an empty or
whitespace-only payload. -/
def contentEventOk : StreamEvent → Bool
  | StreamEvent.content c _ _ => contentful c
  | _ => true

/-- C5: no `content` event ever carries an empty or whitespace-only
fragment, and the producer yielding `["", "  ", "hello"]` results in
exactly one `content` event, carrying `"hello"`. -/
theorem no_spurious_content_events :
    (∀ (session_id wallet_address : String) (p : Producer),
      (generate_response session_id wallet_address p).all contentEventOk = true) ∧
    generate_response "s" "w" { chunks := ["", "  ", "hello"], raises := none }
      = [StreamEvent.session_info "s" "w",
         StreamEvent.content "hello" "s" "w",
         StreamEvent.complete "s" "w"] := by
  constructor
  · intro session_id wallet_address p
    refine List.all_eq_true.mpr ?_
    intro ev hev
    rcases List.mem_cons.mp hev with h | h
    · subst h; rfl
    rcases List.mem_append.mp h with h | h
    · rw [emitContentEvents_eq_filter_map] at h
      obtain ⟨c, hc, rfl⟩ := List.mem_map.mp h
      exact (List.mem_filter.mp hc).2
    · rw [List.mem_singleton.mp h]; rfl
  · rfl

/-- C1 (counterexample): a prior resolve that supplied the empty string as
its session id parks a runtime under the placeholder key `0xabc:new`; a
later resolve that omits the session id then cache-hits that placeholder
and returns the stale empty session id — no fresh identifier is minted, no
re-keying happens, and the returned id is empty rather than the would-be
mint `"u-1"`. -/
theorem omitted_session_reuses_placeholder_entry :
    get_or_create_agent { mintId := "u-0", ctorFail := none }
        { cache := [], nextCtor := 0 } "0xabc" (some "")
      = ({ cache := [("0xabc:new", { session_id := "", user_id := "0xabc", ctorId := 0 })],
           nextCtor := 1 },
         Except.ok ({ session_id := "", user_id := "0xabc", ctorId := 0 }, "")) ∧
    get_or_create_agent { mintId := "u-1", ctorFail := none }
        { cache := [("0xabc:new", { session_id := "", user_id := "0xabc", ctorId := 0 })],
          nextCtor := 1 } "0xabc" none
      = ({ cache := [("0xabc:new", { session_id := "", user_id := "0xabc", ctorId := 0 })],
           nextCtor := 1 },
         Except.ok ({ session_id := "", user_id := "0xabc", ctorId := 0 }, "")) ∧
    ("" : String).isEmpty = true ∧
    ("" : String) ≠ "u-1" := by
  exact ⟨rfl, rfl, rfl, by decide⟩

/-- C1 (amended): when the caller omits the session id and the placeholder
key `owner:new` is unoccupied, the resolve returns the freshly minted
(non-empty, non-`"new"`) identifier, installs the new runtime under the
minted key, removes the placeholder key, and a subsequent resolve with the
minted id — under any later environment — is a cache hit returning the very
same runtime with the state unchanged. -/
theorem omitted_session_mints_rekeys_and_hits
    (env : AgentEnv) (st : CacheState) (wallet : String)
    (hok : env.ctorFail = none)
    (hne : env.mintId ≠ "")
    (hnew : env.mintId ≠ "new")
    (hfresh : Cache.find st.cache (wallet ++ ":" ++ "new") = none) :
    env.mintId ≠ "" ∧
    (get_or_create_agent env st wallet none).2
      = Except.ok ({ session_id := env.mintId, user_id := wallet,
                     ctorId := st.nextCtor }, env.mintId) ∧
    Cache.find (get_or_create_agent env st wallet none).1.cache
        (wallet ++ ":" ++ env.mintId)
      = some { session_id := env.mintId, user_id := wallet, ctorId := st.nextCtor } ∧
    Cache.find (get_or_create_agent env st wallet none).1.cache
        (wallet ++ ":" ++ "new") = none ∧
    (∀ env' : AgentEnv,
      get_or_create_agent env' (get_or_create_agent env st wallet none).1
          wallet (some env.mintId)
        = ((get_or_create_agent env st wallet none).1,
           Except.ok ({ session_id := env.mintId, user_id := wallet,
                        ctorId := st.nextCtor }, env.mintId))) := by
  have hkeys : (wallet ++ ":" ++ env.mintId) ≠ (wallet ++ ":" ++ "new") :=
    fun h => hnew (key_part_inj wallet env.mintId "new" h)
  have hr : get_or_create_agent env st wallet none
      = ({ cache := Cache.erase
             (Cache.insert
               (Cache.insert st.cache (wallet ++ ":" ++ "new")
                 { session_id := env.mintId, user_id := wallet, ctorId := st.nextCtor })
               (wallet ++ ":" ++ env.mintId)
               { session_id := env.mintId, user_id := wallet, ctorId := st.nextCtor })
             (wallet ++ ":" ++ "new"),
           nextCtor := st.nextCtor + 1 },
         Except.ok ({ session_id := env.mintId, user_id := wallet,
                      ctorId := st.nextCtor }, env.mintId)) := by
    simp [get_or_create_agent, get_agent_for_session, sessionKeyPart, hok, hfresh, hkeys]
  have hfound : Cache.find (get_or_create_agent env st wallet none).1.cache
      (wallet ++ ":" ++ env.mintId)
      = some { session_id := env.mintId, user_id := wallet, ctorId := st.nextCtor } := by
    rw [hr]
    simp only [Cache.find_erase_ne _ _ _ hkeys, Cache.find_insert_self]
  refine ⟨hne, by rw [hr], hfound, ?_, ?_⟩
  · rw [hr]
    exact Cache.find_erase_self _ _
  · intro env'
    have hpart : Cache.find (get_or_create_agent env st wallet none).1.cache
        (wallet ++ ":" ++ sessionKeyPart (some env.mintId))
        = some { session_id := env.mintId, user_id := wallet, ctorId := st.nextCtor } := by
      have hs : sessionKeyPart (some env.mintId) = env.mintId := by
        simp [sessionKeyPart, hne]
      rw [hs]
      exact hfound
    exact resolve_hit_eq env' _ wallet env.mintId _ hpart

/-- Witness for the amended C1 on an empty cache with mint `"u-1"`. -/
theorem omitted_session_mints_rekeys_and_hits_witness :
    ("u-1" : String) ≠ "" ∧
    (get_or_create_agent { mintId := "u-1", ctorFail := none }
        { cache := [], nextCtor := 0 } "0xabc" none).2
      = Except.ok ({ session_id := "u-1", user_id := "0xabc", ctorId := 0 }, "u-1") ∧
    Cache.find (get_or_create_agent { mintId := "u-1", ctorFail := none }
        { cache := [], nextCtor := 0 } "0xabc" none).1.cache ("0xabc" ++ ":" ++ "u-1")
      = some { session_id := "u-1", user_id := "0xabc", ctorId := 0 } ∧
    Cache.find (get_or_create_agent { mintId := "u-1", ctorFail := none }
        { cache := [], nextCtor := 0 } "0xabc" none).1.cache ("0xabc" ++ ":" ++ "new")
      = none ∧
    get_or_create_agent { mintId := "u-2", ctorFail := none }
        (get_or_create_agent { mintId := "u-1", ctorFail := none }
          { cache := [], nextCtor := 0 } "0xabc" none).1 "0xabc" (some "u-1")
      = ((get_or_create_agent { mintId := "u-1", ctorFail := none }
            { cache := [], nextCtor := 0 } "0xabc" none).1,
         Except.ok ({ session_id := "u-1", user_id := "0xabc", ctorId := 0 }, "u-1")) := by
  have h := omitted_session_mints_rekeys_and_hits
    { mintId := "u-1", ctorFail := none } { cache := [], nextCtor := 0 } "0xabc"
    (by rfl) (by decide) (by decide) (by rfl)
  exact ⟨h.1, h.2.1, h.2.2.1, h.2.2.2.1, h.2.2.2.2 { mintId := "u-2", ctorFail := none }⟩

end FlashLoanAgent
